import Mathlib

/-!
Verification of the SecureTrace end-to-end-encryption client's core logic.

The development shallowly embeds the TypeScript source:
  - the digest and codec utilities of services/crypto.ts (SHA-256, hex,
    base64 via btoa/atob, UTF-8 via TextEncoder/TextDecoder),
  - the forensic log append operation handleLogEvent of App.tsx,
  - the chain-integrity button verifyIntegrity of components/Dashboard.tsx,
  - the risk-analysis entry point analyzeLogs of services/gemini.ts,
  - the outbound message pipeline handleSendMessage of components/Chat.tsx,
  - the AES-GCM message wrappers encryptMessage/decryptMessage, with the
    platform primitive window.crypto.subtle modelled as an explicit
    function argument (it is a browser built-in, not repository code).

Randomness (crypto.getRandomValues, crypto.randomUUID) and the clock
(Date.now()) are modelled as explicit arguments, and the external
summarization collaborator's reply is an explicit Option argument.
-/

/-! ## UTF-8 (TextEncoder / TextDecoder) -/

/-- UTF-8 encoding of one character as byte values (TextEncoder behaviour). -/
def utf8EncodeChar (c : Char) : List Nat :=
  let n := c.toNat
  if n < 128 then [n]
  else if n < 2048 then [192 + n / 64, 128 + n % 64]
  else if n < 65536 then [224 + n / 4096, 128 + (n / 64) % 64, 128 + n % 64]
  else [240 + n / 262144, 128 + (n / 4096) % 64, 128 + (n / 64) % 64, 128 + n % 64]

/-- UTF-8 encoding of a string as byte values: TextEncoder().encode. -/
def utf8Encode (s : String) : List Nat :=
  (s.data.map utf8EncodeChar).flatten

/-- Build a character from a Unicode scalar value; out-of-range or surrogate
code points give the replacement character U+FFFD (as a decoder would). -/
def mkChar (n : Nat) : Char :=
  if h : n.isValidChar then Char.ofNatAux n h else '�'

/-- Continuation-byte test for the UTF-8 decoder. -/
def utf8Cont (b : Nat) : Bool := 128 ≤ b && b < 192

/-- Second-byte test for three-byte UTF-8 leads, ruling out overlong forms
and surrogates as the WHATWG decoder does. -/
def utf8Second3 (b1 b2 : Nat) : Bool :=
  utf8Cont b2 && (b1 ≠ 224 || 160 ≤ b2) && (b1 ≠ 237 || b2 < 160)

/-- Second-byte test for four-byte UTF-8 leads, ruling out overlong forms
and code points above U+10FFFF as the WHATWG decoder does. -/
def utf8Second4 (b1 b2 : Nat) : Bool :=
  utf8Cont b2 && (b1 ≠ 240 || 144 ≤ b2) && (b1 ≠ 244 || b2 < 144)

/-- UTF-8 decoding of a byte sequence (TextDecoder().decode), with fuel for
structural recursion (each produced character consumes one fuel unit and at
least one byte, so fuel equal to the byte count suffices).  Valid sequences
decode exactly; malformed bytes produce U+FFFD replacement characters
(truncated tails are collapsed to a single replacement, a simplification no
theorem below exercises). -/
def utf8DecodeGo : Nat → List Nat → List Char
  | 0, _ => []
  | _ + 1, [] => []
  | fuel + 1, b1 :: t1 =>
    if b1 < 128 then mkChar b1 :: utf8DecodeGo fuel t1
    else if b1 < 194 then mkChar 65533 :: utf8DecodeGo fuel t1
    else if b1 < 224 then
      match t1 with
      | b2 :: t2 =>
        if utf8Cont b2 then mkChar ((b1 - 192) * 64 + (b2 - 128)) :: utf8DecodeGo fuel t2
        else mkChar 65533 :: utf8DecodeGo fuel (b2 :: t2)
      | [] => [mkChar 65533]
    else if b1 < 240 then
      match t1 with
      | b2 :: b3 :: t3 =>
        if utf8Second3 b1 b2 && utf8Cont b3 then
          mkChar ((b1 - 224) * 4096 + (b2 - 128) * 64 + (b3 - 128)) :: utf8DecodeGo fuel t3
        else mkChar 65533 :: utf8DecodeGo fuel (b2 :: b3 :: t3)
      | _ => [mkChar 65533]
    else if b1 < 245 then
      match t1 with
      | b2 :: b3 :: b4 :: t4 =>
        if utf8Second4 b1 b2 && utf8Cont b3 && utf8Cont b4 then
          mkChar ((b1 - 240) * 262144 + (b2 - 128) * 4096 + (b3 - 128) * 64 + (b4 - 128)) ::
            utf8DecodeGo fuel t4
        else mkChar 65533 :: utf8DecodeGo fuel (b2 :: b3 :: b4 :: t4)
      | _ => [mkChar 65533]
    else mkChar 65533 :: utf8DecodeGo fuel t1

/-- UTF-8 decoding of a byte sequence to a string: TextDecoder().decode. -/
def utf8DecodeString (bs : List Nat) : String := ⟨utf8DecodeGo bs.length bs⟩

/-! ## SHA-256 (window.crypto.subtle.digest) and hex -/

/-- The 64 SHA-256 round constants. -/
def sha256K : List Nat := [1116352408, 1899447441, 3049323471, 3921009573, 961987163, 1508970993, 2453635748, 2870763221, 3624381080, 310598401, 607225278, 1426881987, 1925078388, 2162078206, 2614888103, 3248222580, 3835390401, 4022224774, 264347078, 604807628, 770255983, 1249150122, 1555081692, 1996064986, 2554220882, 2821834349, 2952996808, 3210313671, 3336571891, 3584528711, 113926993, 338241895, 666307205, 773529912, 1294757372, 1396182291, 1695183700, 1986661051, 2177026350, 2456956037, 2730485921, 2820302411, 3259730800, 3345764771, 3516065817, 3600352804, 4094571909, 275423344, 430227734, 506948616, 659060556, 883997877, 958139571, 1322822218, 1537002063, 1747873779, 1955562222, 2024104815, 2227730452, 2361852424, 2428436474, 2756734187, 3204031479, 3329325298]

/-- The SHA-256 initial hash state. -/
def sha256H0 : List Nat := [1779033703, 3144134277, 1013904242, 2773480762, 1359893119, 2600822924, 528734635, 1541459225]

/-- Right rotation of a 32-bit word represented as a Nat below 2^32. -/
def rotr32 (n x : Nat) : Nat :=
  ((x >>> n) ||| (x <<< (32 - n))) % 4294967296

/-- SHA-256 message padding: append 0x80, zeros, and the 64-bit big-endian
bit length, reaching a multiple of 64 bytes. -/
def sha256Pad (msg : List Nat) : List Nat :=
  let L := msg.length
  let z := (119 - L % 64) % 64
  let bits := 8 * L
  msg ++ [128] ++ List.replicate z 0 ++
    [(bits >>> 56) % 256, (bits >>> 48) % 256, (bits >>> 40) % 256, (bits >>> 32) % 256,
     (bits >>> 24) % 256, (bits >>> 16) % 256, (bits >>> 8) % 256, bits % 256]

/-- Group bytes into big-endian 32-bit words. -/
def bytesToWords : List Nat → List Nat
  | a :: b :: c :: d :: rest => ((a <<< 24) ||| (b <<< 16) ||| (c <<< 8) ||| d) :: bytesToWords rest
  | _ => []

/-- Extend the 16 words of a block to the 64-entry SHA-256 message schedule. -/
def sha256Schedule (block : List Nat) : List Nat :=
  (List.range 48).foldl (fun w _ =>
    let n := w.length
    let x15 := w.getD (n - 15) 0
    let x2 := w.getD (n - 2) 0
    let s0 := (rotr32 7 x15) ^^^ (rotr32 18 x15) ^^^ (x15 >>> 3)
    let s1 := (rotr32 17 x2) ^^^ (rotr32 19 x2) ^^^ (x2 >>> 10)
    w ++ [(s1 + w.getD (n - 7) 0 + s0 + w.getD (n - 16) 0) % 4294967296]) (bytesToWords block)

/-- One SHA-256 compression step over a 64-byte block. -/
def sha256Compress (hs : List Nat) (block : List Nat) : List Nat :=
  let w := sha256Schedule block
  let step := fun (st : Nat × Nat × Nat × Nat × Nat × Nat × Nat × Nat) (i : Nat) =>
    let (a, b, c, d, e, f, g, h) := st
    let ch := (e &&& f) ^^^ ((4294967295 ^^^ e) &&& g)
    let maj := (a &&& b) ^^^ (a &&& c) ^^^ (b &&& c)
    let bs1 := (rotr32 6 e) ^^^ (rotr32 11 e) ^^^ (rotr32 25 e)
    let bs0 := (rotr32 2 a) ^^^ (rotr32 13 a) ^^^ (rotr32 22 a)
    let t1 := (h + bs1 + ch + w.getD i 0 + sha256K.getD i 0) % 4294967296
    let t2 := (bs0 + maj) % 4294967296
    ((t1 + t2) % 4294967296, a, b, c, (d + t1) % 4294967296, e, f, g)
  let init := (hs.getD 0 0, hs.getD 1 0, hs.getD 2 0, hs.getD 3 0,
               hs.getD 4 0, hs.getD 5 0, hs.getD 6 0, hs.getD 7 0)
  let fin := (List.range 64).foldl step init
  let (a, b, c, d, e, f, g, h) := fin
  [(hs.getD 0 0 + a) % 4294967296, (hs.getD 1 0 + b) % 4294967296, (hs.getD 2 0 + c) % 4294967296,
   (hs.getD 3 0 + d) % 4294967296, (hs.getD 4 0 + e) % 4294967296, (hs.getD 5 0 + f) % 4294967296,
   (hs.getD 6 0 + g) % 4294967296, (hs.getD 7 0 + h) % 4294967296]

/-- SHA-256 digest of a byte sequence, as 32 bytes. -/
def sha256 (msg : List Nat) : List Nat :=
  let padded := sha256Pad msg
  let nBlocks := padded.length / 64
  let finalHs := (List.range nBlocks).foldl
    (fun hs i => sha256Compress hs ((padded.drop (64 * i)).take 64)) sha256H0
  (finalHs.map (fun w => [(w >>> 24) % 256, (w >>> 16) % 256, (w >>> 8) % 256, w % 256])).flatten

/-- Lower-case hexadecimal digit character. -/
def hexDigit (n : Nat) : Char := "0123456789abcdef".data.getD n '0'

/-- bufferToHex of services/crypto.ts: each byte becomes two lower-case hex
digits (toString(16).padStart(2, '0')). -/
def bufferToHex (bytes : List Nat) : String :=
  ⟨(bytes.map (fun b => [hexDigit (b / 16), hexDigit (b % 16)])).flatten⟩

/-- hashData of services/crypto.ts: hex of the SHA-256 digest of the UTF-8
encoding of the string. -/
def hashData (s : String) : String := bufferToHex (sha256 (utf8Encode s))

/-! ## Base64 (window.btoa / window.atob) -/

/-- The base64 alphabet. -/
def b64Alphabet : String := "ABCDEFGHIJKLMNOPQRSTUVWXYZabcdefghijklmnopqrstuvwxyz0123456789+/"

/-- Character for a 6-bit value. -/
def b64Char (n : Nat) : Char := b64Alphabet.data.getD n 'A'

/-- Base64 encoding of a byte list, as characters (the behaviour of
window.btoa on the corresponding binary string). -/
def btoaChars : List Nat → List Char
  | [] => []
  | [a] => [b64Char (a >>> 2), b64Char ((a &&& 3) <<< 4), '=', '=']
  | [a, b] => [b64Char (a >>> 2), b64Char (((a &&& 3) <<< 4) ||| (b >>> 4)),
               b64Char ((b &&& 15) <<< 2), '=']
  | a :: b :: c :: rest =>
    b64Char (a >>> 2) :: b64Char (((a &&& 3) <<< 4) ||| (b >>> 4)) ::
    b64Char (((b &&& 15) <<< 2) ||| (c >>> 6)) :: b64Char (c &&& 63) :: btoaChars rest

/-- window.btoa on a binary string, given as its list of byte values. -/
def btoa (bytes : List Nat) : String := ⟨btoaChars bytes⟩

/-- bufferToBase64 of services/crypto.ts: String.fromCharCode over the bytes
followed by window.btoa, i.e. base64 of the byte list. -/
def bufferToBase64 (bytes : List Nat) : String := btoa bytes

/-- Index of a character in the base64 alphabet (none for '=' and for
characters outside the alphabet). -/
def b64Index (c : Char) : Option Nat := b64Alphabet.data.indexOf? c

/-- First decoded byte of a base64 quantum. -/
def b64Byte1 (v1 v2 : Nat) : Nat := (v1 <<< 2) ||| (v2 >>> 4)

/-- Second decoded byte of a base64 quantum. -/
def b64Byte2 (v2 v3 : Nat) : Nat := ((v2 &&& 15) <<< 4) ||| (v3 >>> 2)

/-- Third decoded byte of a base64 quantum. -/
def b64Byte3 (v3 v4 : Nat) : Nat := ((v3 &&& 3) <<< 6) ||| v4

/-- Base64 decoding of a character list (forgiving-base64 as used by
window.atob): four-character quanta, with '=' padding or an unpadded
two- or three-character remainder at the end; anything else is an error. -/
def atobChars : List Char → Option (List Nat)
  | [] => some []
  | [a, b] =>
    match b64Index a, b64Index b with
    | some v1, some v2 => some [b64Byte1 v1 v2]
    | _, _ => none
  | [a, b, c] =>
    match b64Index a, b64Index b, b64Index c with
    | some v1, some v2, some v3 => some [b64Byte1 v1 v2, b64Byte2 v2 v3]
    | _, _, _ => none
  | a :: b :: c :: d :: rest =>
    match b64Index a, b64Index b with
    | some v1, some v2 =>
      if c = '=' then
        if d = '=' ∧ rest = [] then some [b64Byte1 v1 v2] else none
      else
        match b64Index c with
        | some v3 =>
          if d = '=' then
            if rest = [] then some [b64Byte1 v1 v2, b64Byte2 v2 v3] else none
          else
            match b64Index d with
            | some v4 =>
              (atobChars rest).map (fun tail => b64Byte1 v1 v2 :: b64Byte2 v2 v3 :: b64Byte3 v3 v4 :: tail)
            | none => none
        | none => none
    | _, _ => none
  | _ => none

/-- window.atob: base64-decode a string to its byte values; none models the
InvalidCharacterError exception. -/
def atob (s : String) : Option (List Nat) := atobChars s.data

/-! ## String helpers used by the message pipeline -/

/-- Lower-casing of one character; the source relies on the platform
String.prototype.toLowerCase, applied here to the ASCII letters that the
application's keyword configuration uses. -/
def toLowerCaseChar (c : Char) : Char :=
  if h : 65 ≤ c.toNat ∧ c.toNat ≤ 90 then
    Char.ofNatAux (c.toNat + 32) (by unfold Nat.isValidChar; omega)
  else c

/-- String.prototype.toLowerCase, character by character. -/
def jsToLowerCase (s : String) : String := ⟨s.data.map toLowerCaseChar⟩

/-- Does the pattern occur as a prefix of some suffix of the list? -/
def infixSearch (pat : List Char) : List Char → Bool
  | [] => pat.isEmpty
  | c :: rest => pat.isPrefixOf (c :: rest) || infixSearch pat rest

/-- String.prototype.includes: substring occurrence test. -/
def jsIncludes (s sub : String) : Bool := infixSearch sub.data s.data

/-- Whitespace for String.prototype.trim. -/
def jsWhitespace (c : Char) : Bool :=
  c = ' ' || c = '\t' || c = '\n' || c = '\r' || c = '\x0b' || c = '\x0c'

/-- String.prototype.trim: strip leading and trailing whitespace. -/
def jsTrim (s : String) : String :=
  ⟨((s.data.dropWhile jsWhitespace).reverse.dropWhile jsWhitespace).reverse⟩

/-- Client-side DLP scan of handleSendMessage (components/Chat.tsx):
suspiciousKeywords.filter(kw => content.toLowerCase().includes(kw)). -/
def detectedKeywords (suspiciousKeywords : List String) (content : String) : List String :=
  suspiciousKeywords.filter (fun kw => jsIncludes (jsToLowerCase content) kw)

/-! ## Data model (types.ts) -/

/-- The LogEventType enum of types.ts. -/
inductive LogEventType where
  | LOGIN
  | KEY_EXCHANGE
  | MESSAGE_SENT
  | MESSAGE_DECRYPTED
  | SUSPICIOUS_KEYWORD
  | LOGOUT
  | ANOMALY_DETECTED
deriving DecidableEq, BEq

/-- The string value of a LogEventType (the enum is string-valued). -/
def LogEventType.str : LogEventType → String
  | .LOGIN => "LOGIN"
  | .KEY_EXCHANGE => "KEY_EXCHANGE"
  | .MESSAGE_SENT => "MESSAGE_SENT"
  | .MESSAGE_DECRYPTED => "MESSAGE_DECRYPTED"
  | .SUSPICIOUS_KEYWORD => "SUSPICIOUS_KEYWORD"
  | .LOGOUT => "LOGOUT"
  | .ANOMALY_DETECTED => "ANOMALY_DETECTED"

/-- Log severity values of types.ts. -/
inductive Severity where
  | INFO
  | WARNING
  | CRITICAL
deriving DecidableEq, BEq

/-- The metadata objects the application passes to handleLogEvent, one
constructor per call-site shape in the source. -/
inductive Metadata where
  | keyExchange (mechanism rsaKeyFingerprint status : String)
  | anomalyError (error : String)
  | suspiciousKeyword (keywords : List String) (length : Nat)
  | messageSent (msgId : String) (size : Nat) (hash : String)
  | messageDecrypted (msgId status : String)
  | login (method status : String)
  | logout (status : String)
  | incidentReport (kind reason sessionFingerprint : String)
  | dlpRule (action keyword : String)
deriving DecidableEq, BEq

/-- JSON string escaping of one character, as JSON.stringify performs it. -/
def jsonEscapeChar (c : Char) : List Char :=
  if c = '"' then ['\\', '"']
  else if c = '\\' then ['\\', '\\']
  else if c = '\n' then ['\\', 'n']
  else if c = '\r' then ['\\', 'r']
  else if c = '\t' then ['\\', 't']
  else if c = '\x08' then ['\\', 'b']
  else if c = '\x0c' then ['\\', 'f']
  else if c.toNat < 32 then
    ['\\', 'u', '0', '0', hexDigit (c.toNat / 16), hexDigit (c.toNat % 16)]
  else [c]

/-- JSON.stringify of a string value. -/
def jsonString (s : String) : String :=
  "\"" ++ (⟨(s.data.map jsonEscapeChar).flatten⟩ : String) ++ "\""

/-- JSON.stringify of an array of string values. -/
def jsonStringArray (xs : List String) : String :=
  "[" ++ String.intercalate "," (xs.map jsonString) ++ "]"

/-- Wrap the comma-joined members of a JSON object in braces. -/
def jsonObj (inner : String) : String := "\x7b" ++ inner ++ "\x7d"

/-- JSON.stringify of a metadata object; keys appear in the insertion order
of the corresponding object literal in the source. -/
def Metadata.stringify : Metadata → String
  | .keyExchange mechanism fingerprint status =>
    jsonObj ("\"mechanism\":" ++ jsonString mechanism ++ ",\"rsaKeyFingerprint\":" ++
      jsonString fingerprint ++ ",\"status\":" ++ jsonString status)
  | .anomalyError error =>
    jsonObj ("\"error\":" ++ jsonString error)
  | .suspiciousKeyword keywords length =>
    jsonObj ("\"keywords\":" ++ jsonStringArray keywords ++ ",\"length\":" ++ toString length)
  | .messageSent msgId size hash =>
    jsonObj ("\"msgId\":" ++ jsonString msgId ++ ",\"size\":" ++ toString size ++
      ",\"hash\":" ++ jsonString hash)
  | .messageDecrypted msgId status =>
    jsonObj ("\"msgId\":" ++ jsonString msgId ++ ",\"status\":" ++ jsonString status)
  | .login method status =>
    jsonObj ("\"method\":" ++ jsonString method ++ ",\"status\":" ++ jsonString status)
  | .logout status =>
    jsonObj ("\"status\":" ++ jsonString status)
  | .incidentReport kind reason fingerprint =>
    jsonObj ("\"type\":" ++ jsonString kind ++ ",\"reason\":" ++ jsonString reason ++
      ",\"sessionFingerprint\":" ++ jsonString fingerprint)
  | .dlpRule action keyword =>
    jsonObj ("\"action\":" ++ jsonString action ++ ",\"keyword\":" ++ jsonString keyword)

/-- The ForensicLog record of types.ts. -/
structure ForensicLog where
  id : String
  timestamp : Nat
  userId : String
  eventType : LogEventType
  metadata : Metadata
  severity : Severity
  hash : String
deriving DecidableEq, BEq

/-- The Message record of types.ts. -/
structure Message where
  id : String
  senderId : String
  content : String
  encryptedContent : String
  timestamp : Nat
  integrityHash : String
  isSystem : Bool
deriving DecidableEq, BEq

/-- The RiskFactor record of types.ts. -/
structure RiskFactor where
  factor : String
  points : Nat
  count : Nat
deriving DecidableEq, BEq

/-- The AnalysisResult record of types.ts. -/
structure AnalysisResult where
  score : Nat
  summary : String
  anomalies : List String
  riskFactors : List RiskFactor
deriving DecidableEq, BEq

/-! ## Forensic log append (handleLogEvent of App.tsx) -/

/-- The payload string the append operation hashes:
JSON.stringify of the object with keys type, metadata, timestamp, userId. -/
def logPayload (eventType : LogEventType) (metadata : Metadata) (timestamp : Nat)
    (userId : String) : String :=
  jsonObj ("\"type\":" ++ jsonString eventType.str ++ ",\"metadata\":" ++ metadata.stringify ++
    ",\"timestamp\":" ++ toString timestamp ++ ",\"userId\":" ++ jsonString userId)

/-- handleLogEvent of App.tsx.  The source reads Date.now() twice: once
inside the hashed payload and once for the stored timestamp field; the two
clock readings are the explicit arguments tPayload and tEntry (the second
read happens after awaiting hashData, so they can differ).  newId stands
for crypto.randomUUID(), and targetUserId for the resolved user id. -/
def handleLogEvent (eventType : LogEventType) (metadata : Metadata) (severity : Severity)
    (targetUserId : String) (newId : String) (tPayload tEntry : Nat) : ForensicLog :=
  let payload := logPayload eventType metadata tPayload targetUserId
  let logHash := hashData payload
  { id := newId, timestamp := tEntry, userId := targetUserId, eventType := eventType,
    metadata := metadata, severity := severity, hash := logHash }

/-- Recompute a stored entry's hash from its stored fields, as chain
verification would. -/
def recomputeHash (l : ForensicLog) : String :=
  hashData (logPayload l.eventType l.metadata l.timestamp l.userId)

/-! ## Chain-integrity verification (components/Dashboard.tsx) -/

/-- The integrity status displayed by the dashboard. -/
inductive IntegrityStatus where
  | verified
  | unknown
deriving DecidableEq, BEq

/-- verifyIntegrity of components/Dashboard.tsx: the handler ignores the log
entries and unconditionally sets the status to 'verified' (its comment says
it merely simulates the verification of the tamper-evident log chain). -/
def verifyIntegrity (_logs : List ForensicLog) : IntegrityStatus := .verified

/-! ## Risk analysis (analyzeLogs of services/gemini.ts) -/

/-- The digest analyzeLogs prepares from the logs for the external
collaborator: event type, severity, metadata and a truncated hash prefix
per entry (the ISO rendering of the timestamp is kept as the raw value). -/
def logDigest (logs : List ForensicLog) : List (Nat × LogEventType × Severity × Metadata × String) :=
  logs.map (fun l => (l.timestamp, l.eventType, l.severity, l.metadata, (l.hash.take 8) ++ "..."))

/-- The fixed result the catch branch of analyzeLogs returns. -/
def analysisFallback : AnalysisResult :=
  { score := 0
    summary := "Automated analysis failed. Manual review required."
    anomalies := ["Analysis service unavailable"]
    riskFactors := [] }

/-- analyzeLogs of services/gemini.ts.  The score, summary, anomalies and
riskFactors are produced by the external Gemini collaborator; response is
its parsed reply (none when the service is unavailable, the reply is empty,
or JSON.parse fails, in which case the catch branch returns the fixed
fallback).  The logs only feed the outbound digest. -/
def analyzeLogs (logs : List ForensicLog) (response : Option AnalysisResult) : AnalysisResult :=
  let _digest := logDigest logs
  match response with
  | some r => r
  | none => analysisFallback

/-! ## The scoring rubric (spec-modelled) -/

/-- Number of entries of a given event type. -/
def countType (t : LogEventType) (logs : List ForensicLog) : Nat :=
  (logs.filter (fun l => l.eventType == t)).length

/-- Number of entries of a given severity. -/
def countSeverity (s : Severity) (logs : List ForensicLog) : Nat :=
  (logs.filter (fun l => l.severity == s)).length

/-- Modelled from the spec: the deterministic scoring rubric.  The source
only states this rubric as natural-language instructions to the external
collaborator (SYSTEM_INSTRUCTION of services/gemini.ts); no repository code
computes it.  mismatch is the unspecified metadata hash-mismatch test of
rubric rule 6. -/
def rubricScore (mismatch : ForensicLog → Bool) (logs : List ForensicLog) : Nat :=
  min 100 (15 * countType .SUSPICIOUS_KEYWORD logs + 25 * countSeverity .CRITICAL logs +
    10 * countSeverity .WARNING logs + 20 * countType .ANOMALY_DETECTED logs +
    (if logs.any mismatch then 50 else 0))

/-- Modelled from the spec: the riskFactors breakdown, one entry per rubric
rule that contributed, in the fixed rubric order, omitting rules with no
matching events. -/
def rubricFactors (mismatch : ForensicLog → Bool) (logs : List ForensicLog) : List RiskFactor :=
  let nSK := countType .SUSPICIOUS_KEYWORD logs
  let nCrit := countSeverity .CRITICAL logs
  let nWarn := countSeverity .WARNING logs
  let nAnom := countType .ANOMALY_DETECTED logs
  (if 0 < nSK then [⟨"Suspicious Keywords", 15 * nSK, nSK⟩] else []) ++
  (if 0 < nCrit then [⟨"Critical Severity", 25 * nCrit, nCrit⟩] else []) ++
  (if 0 < nWarn then [⟨"Warning Severity", 10 * nWarn, nWarn⟩] else []) ++
  (if 0 < nAnom then [⟨"Anomaly Events", 20 * nAnom, nAnom⟩] else []) ++
  (if logs.any mismatch then [⟨"Integrity Hash Mismatch", 50, 1⟩] else [])

/-! ## Symmetric cipher wrappers (services/crypto.ts) -/

/-- The envelope encryptMessage returns: base64 iv and base64 ciphertext. -/
structure Envelope where
  iv : String
  ciphertext : String
deriving DecidableEq, BEq

/-- encryptMessage of services/crypto.ts.  subtleEncrypt models the
platform AES-GCM primitive window.crypto.subtle.encrypt (key, iv and data
as byte values); ivBytes models the fresh crypto.getRandomValues output the
caller drew.  The message is UTF-8 encoded, encrypted, and both iv and
ciphertext are base64 encoded. -/
def encryptMessage (subtleEncrypt : List Nat → List Nat → List Nat → List Nat)
    (key : List Nat) (ivBytes : List Nat) (message : String) : Envelope :=
  let encoded := utf8Encode message
  let encrypted := subtleEncrypt key ivBytes encoded
  { iv := bufferToBase64 ivBytes, ciphertext := bufferToBase64 encrypted }

/-- decryptMessage of services/crypto.ts.  subtleDecrypt models
window.crypto.subtle.decrypt for AES-GCM (none is the thrown
authentication failure); atob failures model the InvalidCharacterError
exception.  On success the plaintext bytes are UTF-8 decoded. -/
def decryptMessage (subtleDecrypt : List Nat → List Nat → List Nat → Option (List Nat))
    (key : List Nat) (ciphertext ivStr : String) : Option String :=
  match atob ivStr, atob ciphertext with
  | some iv, some data => (subtleDecrypt key iv data).map utf8DecodeString
  | _, _ => none

/-! ## Outbound message pipeline (handleSendMessage of components/Chat.tsx) -/

/-- A log event emitted through the onLogEvent callback. -/
structure LogEvent where
  eventType : LogEventType
  metadata : Metadata
  severity : Severity
deriving DecidableEq, BEq

/-- The synchronous outcome of handleSendMessage: the updated message list,
the log events emitted through onLogEvent, and the message constructed (if
any). -/
structure SendOutcome where
  messages : List Message
  events : List LogEvent
  sent : Option Message
deriving DecidableEq, BEq

/-- handleSendMessage of components/Chat.tsx (the synchronous sending path;
the delayed echo simulation is separate).  aesKey is the session key state
(none before the handshake reaches Secure); ivBytes, now and newId model
crypto.getRandomValues, Date.now() and crypto.randomUUID().  The guard
rejects empty input and a missing session key; otherwise the DLP scan may
emit a SUSPICIOUS_KEYWORD event, the content is encrypted, hashed, the
Message is constructed and appended, and a MESSAGE_SENT event is emitted. -/
def handleSendMessage (subtleEncrypt : List Nat → List Nat → List Nat → List Nat)
    (suspiciousKeywords : List String) (currentUserId : String)
    (aesKey : Option (List Nat)) (inputText : String) (messages : List Message)
    (ivBytes : List Nat) (now : Nat) (newId : String) : SendOutcome :=
  match aesKey with
  | none => { messages := messages, events := [], sent := none }
  | some key =>
    if jsTrim inputText = "" then { messages := messages, events := [], sent := none }
    else
      let content := inputText
      let detected := detectedKeywords suspiciousKeywords content
      let dlpEvents : List LogEvent :=
        if 0 < detected.length then
          [{ eventType := .SUSPICIOUS_KEYWORD,
             metadata := .suspiciousKeyword detected content.length,
             severity := .WARNING }]
        else []
      let envelope := encryptMessage subtleEncrypt key ivBytes content
      let integrityHash := hashData envelope.ciphertext
      let newMessage : Message :=
        { id := newId, senderId := currentUserId, content := content,
          encryptedContent := envelope.iv ++ ":" ++ envelope.ciphertext,
          timestamp := now, integrityHash := integrityHash, isSystem := false }
      { messages := messages ++ [newMessage],
        events := dlpEvents ++
          [{ eventType := .MESSAGE_SENT,
             metadata := .messageSent newId envelope.ciphertext.length integrityHash,
             severity := .INFO }],
        sent := some newMessage }

/-! ## Concrete log material for the integrity claims -/

/-- An untouched entry appended by the log operation (both clock readings
equal, so the stored hash matches the stored fields). -/
def c1Entry : ForensicLog :=
  handleLogEvent .MESSAGE_SENT (.messageSent "m-1" 24 "ff") .INFO "user-001" "log-1" 1000 1000

/-- The same entry with its userId field mutated and the stored hash left
untouched. -/
def c1Tampered : ForensicLog := { c1Entry with userId := "intruder" }

/-- An entry appended while the clock advanced between the payload
construction and the entry construction (the source reads Date.now()
twice). -/
def c4Entry : ForensicLog :=
  handleLogEvent .MESSAGE_SENT (.messageSent "m-1" 24 "ff") .INFO "user-001" "log-2" 1000 1001

/-- A log with 2 SUSPICIOUS_KEYWORD entries, 1 CRITICAL entry, 3 WARNING
entries, 0 ANOMALY_DETECTED entries (the two keyword events carry WARNING
severity, as the message pipeline emits them). -/
def c2Logs : List ForensicLog :=
  [⟨"e1", 1, "user-001", .SUSPICIOUS_KEYWORD, .suspiciousKeyword ["leak"] 10, .WARNING, "a1"⟩,
   ⟨"e2", 2, "user-001", .SUSPICIOUS_KEYWORD, .suspiciousKeyword ["hack"] 12, .WARNING, "a2"⟩,
   ⟨"e3", 3, "user-001", .LOGIN, .login "PASSWORD" "FAILED", .CRITICAL, "a3"⟩,
   ⟨"e4", 4, "user-001", .LOGOUT, .logout "SUCCESS", .WARNING, "a4"⟩]

/-- A second copy of the same rubric situation, used for the fallback
claim. -/
def c3Logs : List ForensicLog :=
  [⟨"f1", 1, "user-002", .SUSPICIOUS_KEYWORD, .suspiciousKeyword ["bribe"] 9, .WARNING, "b1"⟩,
   ⟨"f2", 2, "user-002", .SUSPICIOUS_KEYWORD, .suspiciousKeyword ["leak"] 7, .WARNING, "b2"⟩,
   ⟨"f3", 3, "user-002", .MESSAGE_DECRYPTED, .messageDecrypted "m-9" "FAILED", .CRITICAL, "b3"⟩,
   ⟨"f4", 4, "user-002", .LOGOUT, .logout "SUCCESS", .WARNING, "b4"⟩]

/-- Witness log for the rubric theorem. -/
def c2WitnessLogs : List ForensicLog :=
  [⟨"w1", 1, "user-001", .SUSPICIOUS_KEYWORD, .suspiciousKeyword ["leak"] 10, .WARNING, "c1"⟩,
   ⟨"w2", 2, "user-001", .SUSPICIOUS_KEYWORD, .suspiciousKeyword ["hack"] 12, .WARNING, "c2"⟩,
   ⟨"w3", 3, "user-001", .KEY_EXCHANGE, .anomalyError "RSA Key Exchange Failed", .CRITICAL, "c3"⟩,
   ⟨"w4", 4, "user-001", .LOGOUT, .logout "SUCCESS", .WARNING, "c4"⟩]

/-! ## Sanity checks for the digest embedding (FIPS 180-4 test vectors) -/

set_option maxRecDepth 10000 in
theorem sha256_test_vector_abc :
    hashData "abc" = "ba7816bf8f01cfea414140de5dae2223b00361a396177a9cb410ff61f20015ad" := by
  decide

set_option maxRecDepth 10000 in
theorem sha256_test_vector_empty :
    hashData "" = "e3b0c44298fc1c149afbf4c8996fb92427ae41e4649b934ca495991b7852b855" := by
  decide

/-! ## UTF-8 round trip -/

theorem mkChar_toNat_eq (c : Char) : mkChar c.toNat = c := by
  have h : Nat.isValidChar c.toNat := c.valid
  simp only [mkChar, dif_pos h]
  exact Char.ext (UInt32.ext rfl)

theorem char_valid_nat (c : Char) :
    c.toNat < 55296 ∨ (57343 < c.toNat ∧ c.toNat < 1114112) := c.valid

theorem utf8DecodeGo_nil (fuel : Nat) : utf8DecodeGo fuel [] = [] := by
  cases fuel <;> rfl

theorem utf8Decode_step1 (fuel b1 : Nat) (rest : List Nat) (h1 : b1 < 128) :
    utf8DecodeGo (fuel + 1) (b1 :: rest) = mkChar b1 :: utf8DecodeGo fuel rest := by
  simp only [utf8DecodeGo]
  rw [if_pos h1]

theorem utf8Decode_step2 (fuel b1 b2 : Nat) (rest : List Nat) (h1 : 194 ≤ b1) (h2 : b1 < 224)
    (h3 : 128 ≤ b2) (h4 : b2 < 192) :
    utf8DecodeGo (fuel + 1) (b1 :: b2 :: rest) =
      mkChar ((b1 - 192) * 64 + (b2 - 128)) :: utf8DecodeGo fuel rest := by
  simp only [utf8DecodeGo]
  rw [if_neg (by omega), if_neg (by omega), if_pos h2,
    if_pos (show utf8Cont b2 = true by
      simp only [utf8Cont, Bool.and_eq_true, decide_eq_true_eq]
      omega)]

theorem utf8Decode_step3 (fuel b1 b2 b3 : Nat) (rest : List Nat) (h1 : 224 ≤ b1) (h2 : b1 < 240)
    (hs : utf8Second3 b1 b2 = true) (h3 : 128 ≤ b3) (h4 : b3 < 192) :
    utf8DecodeGo (fuel + 1) (b1 :: b2 :: b3 :: rest) =
      mkChar ((b1 - 224) * 4096 + (b2 - 128) * 64 + (b3 - 128)) :: utf8DecodeGo fuel rest := by
  simp only [utf8DecodeGo]
  rw [if_neg (by omega), if_neg (by omega), if_neg (by omega), if_pos h2]
  rw [if_pos (show (utf8Second3 b1 b2 && utf8Cont b3) = true by
    rw [hs, Bool.true_and]
    simp only [utf8Cont, Bool.and_eq_true, decide_eq_true_eq]
    omega)]

theorem utf8Decode_step4 (fuel b1 b2 b3 b4 : Nat) (rest : List Nat) (h1 : 240 ≤ b1)
    (h2 : b1 < 245) (hs : utf8Second4 b1 b2 = true) (h3 : 128 ≤ b3) (h4 : b3 < 192)
    (h5 : 128 ≤ b4) (h6 : b4 < 192) :
    utf8DecodeGo (fuel + 1) (b1 :: b2 :: b3 :: b4 :: rest) =
      mkChar ((b1 - 240) * 262144 + (b2 - 128) * 4096 + (b3 - 128) * 64 + (b4 - 128)) ::
        utf8DecodeGo fuel rest := by
  simp only [utf8DecodeGo]
  rw [if_neg (by omega), if_neg (by omega), if_neg (by omega), if_neg (by omega), if_pos h2]
  rw [if_pos (show (utf8Second4 b1 b2 && utf8Cont b3 && utf8Cont b4) = true by
    rw [hs, Bool.true_and]
    simp only [utf8Cont, Bool.and_eq_true, decide_eq_true_eq]
    refine ⟨⟨?_, ?_⟩, ?_, ?_⟩ <;> omega)]

theorem utf8Decode_encodeChar (c : Char) (fuel : Nat) (rest : List Nat) :
    utf8DecodeGo (fuel + 1) (utf8EncodeChar c ++ rest) = c :: utf8DecodeGo fuel rest := by
  have hv := char_valid_nat c
  by_cases hc1 : c.toNat < 128
  · simp only [utf8EncodeChar, if_pos hc1, List.cons_append, List.nil_append]
    rw [utf8Decode_step1 fuel _ rest hc1, mkChar_toNat_eq]
  · by_cases hc2 : c.toNat < 2048
    · simp only [utf8EncodeChar, if_neg hc1, if_pos hc2, List.cons_append, List.nil_append]
      rw [utf8Decode_step2 fuel _ _ rest (by omega) (by omega) (by omega) (by omega)]
      have harg : (192 + c.toNat / 64 - 192) * 64 + (128 + c.toNat % 64 - 128) = c.toNat := by
        omega
      rw [harg, mkChar_toNat_eq]
    · by_cases hc3 : c.toNat < 65536
      · simp only [utf8EncodeChar, if_neg hc1, if_neg hc2, if_pos hc3, List.cons_append,
          List.nil_append]
        rw [utf8Decode_step3 fuel _ _ _ rest (by omega) (by omega)
          (by simp only [utf8Second3, utf8Cont, Bool.and_eq_true, Bool.or_eq_true,
                decide_eq_true_eq, ne_eq, Bool.not_eq_true', decide_eq_false_iff_not]
              omega)
          (by omega) (by omega)]
        have harg : (224 + c.toNat / 4096 - 224) * 4096 + (128 + c.toNat / 64 % 64 - 128) * 64 +
            (128 + c.toNat % 64 - 128) = c.toNat := by
          omega
        rw [harg, mkChar_toNat_eq]
      · simp only [utf8EncodeChar, if_neg hc1, if_neg hc2, if_neg hc3, List.cons_append,
          List.nil_append]
        rw [utf8Decode_step4 fuel _ _ _ _ rest (by omega) (by omega)
          (by simp only [utf8Second4, utf8Cont, Bool.and_eq_true, Bool.or_eq_true,
                decide_eq_true_eq, ne_eq, Bool.not_eq_true', decide_eq_false_iff_not]
              omega)
          (by omega) (by omega) (by omega) (by omega)]
        have harg : (240 + c.toNat / 262144 - 240) * 262144 +
            (128 + c.toNat / 4096 % 64 - 128) * 4096 +
            (128 + c.toNat / 64 % 64 - 128) * 64 + (128 + c.toNat % 64 - 128) = c.toNat := by
          omega
        rw [harg, mkChar_toNat_eq]

theorem utf8Decode_encode_list (cs : List Char) (fuel : Nat) (hf : cs.length ≤ fuel) :
    utf8DecodeGo fuel ((cs.map utf8EncodeChar).flatten) = cs := by
  induction cs generalizing fuel with
  | nil => simp [utf8DecodeGo_nil]
  | cons c cs ih =>
    cases fuel with
    | zero => simp at hf
    | succ f =>
      simp only [List.map_cons, List.flatten_cons]
      rw [utf8Decode_encodeChar c f _]
      rw [ih f (by simpa using hf)]

theorem length_le_utf8Encode_length (cs : List Char) :
    cs.length ≤ ((cs.map utf8EncodeChar).flatten).length := by
  induction cs with
  | nil => simp
  | cons c cs ih =>
    simp only [List.map_cons, List.flatten_cons, List.length_cons, List.length_append]
    have : 1 ≤ (utf8EncodeChar c).length := by
      simp only [utf8EncodeChar]
      split
      · simp
      · split
        · simp
        · split <;> simp
    omega

theorem utf8_roundtrip (s : String) : utf8DecodeString (utf8Encode s) = s := by
  have h1 : utf8DecodeGo (utf8Encode s).length (utf8Encode s) = s.data := by
    have := length_le_utf8Encode_length s.data
    exact utf8Decode_encode_list s.data _ (by simpa [utf8Encode] using this)
  simp only [utf8DecodeString, utf8Encode] at h1 ⊢
  rw [h1]

/-! ## Base64 round trip -/

set_option maxRecDepth 10000 in
theorem nat_and_3 : ∀ x < 256, x &&& 3 = x % 4 := by decide

set_option maxRecDepth 10000 in
theorem nat_and_15 : ∀ x < 256, x &&& 15 = x % 16 := by decide

set_option maxRecDepth 10000 in
theorem nat_and_63 : ∀ x < 256, x &&& 63 = x % 64 := by decide

theorem nat_shr_2 (x : Nat) : x >>> 2 = x / 4 := by
  rw [Nat.shiftRight_eq_div_pow]

theorem nat_shr_4 (x : Nat) : x >>> 4 = x / 16 := by
  rw [Nat.shiftRight_eq_div_pow]

theorem nat_shr_6 (x : Nat) : x >>> 6 = x / 64 := by
  rw [Nat.shiftRight_eq_div_pow]

theorem nat_or_4_16 : ∀ x < 4, ∀ y < 16, ((x <<< 4) ||| y) = 16 * x + y := by decide

theorem nat_or_16_4 : ∀ x < 16, ∀ y < 4, ((x <<< 2) ||| y) = 4 * x + y := by decide

theorem nat_or_64_4 : ∀ x < 64, ∀ y < 4, ((x <<< 2) ||| y) = 4 * x + y := by decide

theorem nat_or_16_16 : ∀ x < 16, ∀ y < 16, ((x <<< 4) ||| y) = 16 * x + y := by decide

theorem nat_or_4_64 : ∀ x < 4, ∀ y < 64, ((x <<< 6) ||| y) = 64 * x + y := by decide

theorem b64Index_b64Char : ∀ n < 64, b64Index (b64Char n) = some n := by decide

theorem b64Char_ne_pad : ∀ n < 64, b64Char n ≠ '=' := by decide

theorem b64v1_lt (a : Nat) (ha : a < 256) : a >>> 2 < 64 := by
  rw [nat_shr_2]; omega

theorem b64v2_eq (a b : Nat) (ha : a < 256) (hb : b < 256) :
    ((a &&& 3) <<< 4) ||| (b >>> 4) = 16 * (a % 4) + b / 16 := by
  rw [nat_and_3 a ha, nat_shr_4, nat_or_4_16 (a % 4) (by omega) (b / 16) (by omega)]

theorem b64v2_lt (a b : Nat) (ha : a < 256) (hb : b < 256) :
    ((a &&& 3) <<< 4) ||| (b >>> 4) < 64 := by
  rw [b64v2_eq a b ha hb]; omega

theorem b64v3_eq (b c : Nat) (hb : b < 256) (hc : c < 256) :
    ((b &&& 15) <<< 2) ||| (c >>> 6) = 4 * (b % 16) + c / 64 := by
  rw [nat_and_15 b hb, nat_shr_6, nat_or_16_4 (b % 16) (by omega) (c / 64) (by omega)]

theorem b64v3_lt (b c : Nat) (hb : b < 256) (hc : c < 256) :
    ((b &&& 15) <<< 2) ||| (c >>> 6) < 64 := by
  rw [b64v3_eq b c hb hc]; omega

theorem b64v4_lt (c : Nat) (hc : c < 256) : c &&& 63 < 64 := by
  rw [nat_and_63 c hc]; omega

theorem b64Byte1_recover (a b : Nat) (ha : a < 256) (hb : b < 256) :
    b64Byte1 (a >>> 2) (((a &&& 3) <<< 4) ||| (b >>> 4)) = a := by
  rw [b64Byte1, b64v2_eq a b ha hb, nat_shr_2, nat_shr_4,
    nat_or_64_4 (a / 4) (by omega) ((16 * (a % 4) + b / 16) / 16) (by omega)]
  omega

theorem b64Byte2_recover (a b c : Nat) (ha : a < 256) (hb : b < 256) (hc : c < 256) :
    b64Byte2 (((a &&& 3) <<< 4) ||| (b >>> 4)) (((b &&& 15) <<< 2) ||| (c >>> 6)) = b := by
  rw [b64Byte2, b64v2_eq a b ha hb, b64v3_eq b c hb hc,
    nat_and_15 (16 * (a % 4) + b / 16) (by omega), nat_shr_2,
    nat_or_16_16 ((16 * (a % 4) + b / 16) % 16) (by omega) ((4 * (b % 16) + c / 64) / 4) (by omega)]
  omega

theorem b64Byte3_recover (b c : Nat) (hb : b < 256) (hc : c < 256) :
    b64Byte3 (((b &&& 15) <<< 2) ||| (c >>> 6)) (c &&& 63) = c := by
  rw [b64Byte3, b64v3_eq b c hb hc, nat_and_3 (4 * (b % 16) + c / 64) (by omega),
    nat_and_63 c hc, nat_or_4_64 ((4 * (b % 16) + c / 64) % 4) (by omega) (c % 64) (by omega)]
  omega

theorem atobChars_btoaChars (bs : List Nat) (h : ∀ x ∈ bs, x < 256) :
    atobChars (btoaChars bs) = some bs := by
  induction bs using btoaChars.induct with
  | case1 => rfl
  | case2 a =>
    have ha : a < 256 := h a (by simp)
    have hv1 : a >>> 2 < 64 := b64v1_lt a ha
    have hv2 : (a &&& 3) <<< 4 < 64 := by
      have := b64v2_eq a 0 ha (by omega)
      simp only [Nat.zero_shiftRight, Nat.or_zero] at this
      omega
    have hrec := b64Byte1_recover a 0 ha (by omega)
    simp only [Nat.zero_shiftRight, Nat.or_zero] at hrec
    simp [btoaChars, atobChars, b64Index_b64Char _ hv1, b64Index_b64Char _ hv2, hrec]
  | case3 a b =>
    have ha : a < 256 := h a (by simp)
    have hb : b < 256 := h b (by simp)
    have hv1 : a >>> 2 < 64 := b64v1_lt a ha
    have hv2 := b64v2_lt a b ha hb
    have hv3 : (b &&& 15) <<< 2 < 64 := by
      have := b64v3_eq b 0 hb (by omega)
      simp only [Nat.zero_shiftRight, Nat.or_zero] at this
      omega
    have h1 := b64Byte1_recover a b ha hb
    have h2 := b64Byte2_recover a b 0 ha hb (by omega)
    simp only [Nat.zero_shiftRight, Nat.or_zero] at h2
    simp [btoaChars, atobChars, b64Index_b64Char _ hv1, b64Index_b64Char _ hv2,
      b64Index_b64Char _ hv3, b64Char_ne_pad _ hv3, h1, h2]
  | case4 a b c rest ih =>
    have ha : a < 256 := h a (by simp)
    have hb : b < 256 := h b (by simp)
    have hc : c < 256 := h c (by simp)
    have hrest : ∀ x ∈ rest, x < 256 := fun x hx => h x (by simp [hx])
    have hv1 : a >>> 2 < 64 := b64v1_lt a ha
    have hv2 := b64v2_lt a b ha hb
    have hv3 := b64v3_lt b c hb hc
    have hv4 := b64v4_lt c hc
    simp [btoaChars, atobChars, b64Index_b64Char _ hv1, b64Index_b64Char _ hv2,
      b64Index_b64Char _ hv3, b64Index_b64Char _ hv4, b64Char_ne_pad _ hv3,
      b64Char_ne_pad _ hv4, ih hrest, b64Byte1_recover a b ha hb,
      b64Byte2_recover a b c ha hb hc, b64Byte3_recover b c hb hc]

theorem atob_btoa (bs : List Nat) (h : ∀ x ∈ bs, x < 256) : atob (btoa bs) = some bs := by
  simpa [atob, btoa] using atobChars_btoaChars bs h

/-! ## Byte bounds and the cipher wrapper round trip -/

theorem utf8EncodeChar_lt_256 (c : Char) : ∀ b ∈ utf8EncodeChar c, b < 256 := by
  have hv := char_valid_nat c
  intro b hb
  by_cases hc1 : c.toNat < 128
  · simp only [utf8EncodeChar, if_pos hc1, List.mem_singleton] at hb
    omega
  · by_cases hc2 : c.toNat < 2048
    · simp only [utf8EncodeChar, if_neg hc1, if_pos hc2, List.mem_cons,
        List.mem_singleton, List.not_mem_nil, or_false] at hb
      rcases hb with hb | hb <;> omega
    · by_cases hc3 : c.toNat < 65536
      · simp only [utf8EncodeChar, if_neg hc1, if_neg hc2, if_pos hc3, List.mem_cons,
          List.not_mem_nil, or_false] at hb
        rcases hb with hb | hb | hb <;> omega
      · simp only [utf8EncodeChar, if_neg hc1, if_neg hc2, if_neg hc3, List.mem_cons,
          List.not_mem_nil, or_false] at hb
        rcases hb with hb | hb | hb | hb <;> omega

theorem utf8Encode_lt_256 (s : String) : ∀ b ∈ utf8Encode s, b < 256 := by
  intro b hb
  simp only [utf8Encode, List.mem_flatten, List.mem_map] at hb
  obtain ⟨l, ⟨c, _, rfl⟩, hbl⟩ := hb
  exact utf8EncodeChar_lt_256 c b hbl

/-- C8: for every symmetric key and every string, decrypting the envelope
produced by encryptMessage with the same key returns the plaintext; the
platform AES-GCM primitives are any pair subtleEncrypt/subtleDecrypt
satisfying their contract (decrypt inverts encrypt under the same key and
iv, and ciphertexts are byte sequences). -/
theorem encryptMessage_decryptMessage_roundtrip
    (subtleEncrypt : List Nat → List Nat → List Nat → List Nat)
    (subtleDecrypt : List Nat → List Nat → List Nat → Option (List Nat))
    (hED : ∀ k iv d, subtleDecrypt k iv (subtleEncrypt k iv d) = some d)
    (hE : ∀ k iv d, (∀ b ∈ d, b < 256) → ∀ b ∈ subtleEncrypt k iv d, b < 256)
    (key ivBytes : List Nat) (hiv : ∀ b ∈ ivBytes, b < 256) (m : String) :
    decryptMessage subtleDecrypt key
      (encryptMessage subtleEncrypt key ivBytes m).ciphertext
      (encryptMessage subtleEncrypt key ivBytes m).iv = some m := by
  simp only [encryptMessage, decryptMessage, bufferToBase64]
  rw [atob_btoa ivBytes hiv, atob_btoa _ (hE key ivBytes _ (utf8Encode_lt_256 m))]
  show Option.map utf8DecodeString
    (subtleDecrypt key ivBytes (subtleEncrypt key ivBytes (utf8Encode m))) = some m
  rw [hED]
  simp [utf8_roundtrip]

theorem encryptMessage_decryptMessage_roundtrip_witness :
    decryptMessage (fun _ _ d => some d) [7]
      (encryptMessage (fun _ _ d => d) [7] [0, 1, 2, 3, 4, 5, 6, 7, 8, 9, 10, 11] "secure message").ciphertext
      (encryptMessage (fun _ _ d => d) [7] [0, 1, 2, 3, 4, 5, 6, 7, 8, 9, 10, 11] "secure message").iv =
      some "secure message" :=
  encryptMessage_decryptMessage_roundtrip (fun _ _ d => d) (fun _ _ d => some d)
    (fun _ _ _ => rfl) (fun _ _ _ hd => hd) [7] [0, 1, 2, 3, 4, 5, 6, 7, 8, 9, 10, 11]
    (by decide) "secure message"

/-! ## DLP scan lemmas -/

theorem toLowerCaseChar_not_upper (c : Char) :
    ¬(65 ≤ (toLowerCaseChar c).toNat ∧ (toLowerCaseChar c).toNat ≤ 90) := by
  unfold toLowerCaseChar
  by_cases h : 65 ≤ c.toNat ∧ c.toNat ≤ 90
  · rw [dif_pos h]
    have : (Char.ofNatAux (c.toNat + 32)
        (by unfold Nat.isValidChar; omega)).toNat = c.toNat + 32 := rfl
    omega
  · rw [dif_neg h]
    omega

theorem mem_of_isPrefixOf (sub l : List Char) (h : sub.isPrefixOf l = true) :
    ∀ c ∈ sub, c ∈ l := by
  induction sub generalizing l with
  | nil => intro c hc; simp at hc
  | cons a as ih =>
    cases l with
    | nil => simp [List.isPrefixOf] at h
    | cons b bs =>
      simp only [List.isPrefixOf, Bool.and_eq_true, beq_iff_eq] at h
      intro c hc
      rcases List.mem_cons.mp hc with rfl | hc
      · simp [h.1]
      · exact List.mem_cons_of_mem b (ih bs h.2 c hc)

theorem mem_of_infixSearch (sub l : List Char) (h : infixSearch sub l = true) :
    ∀ c ∈ sub, c ∈ l := by
  induction l with
  | nil =>
    simp only [infixSearch, List.isEmpty_iff] at h
    subst h
    intro c hc
    simp at hc
  | cons b bs ih =>
    simp only [infixSearch, Bool.or_eq_true] at h
    intro c hc
    rcases h with h | h
    · exact mem_of_isPrefixOf sub (b :: bs) h c hc
    · exact List.mem_cons_of_mem b (ih h c hc)

theorem jsToLowerCase_no_upper (s : String) :
    ∀ c ∈ (jsToLowerCase s).data, ¬(65 ≤ c.toNat ∧ c.toNat ≤ 90) := by
  intro c hc
  simp only [jsToLowerCase, List.mem_map] at hc
  obtain ⟨c0, _, rfl⟩ := hc
  exact toLowerCaseChar_not_upper c0

/-- C9: the DLP scan reports exactly the configured keywords that occur
verbatim as substrings of the lowercased message (in particular a keyword
embedded inside a longer word is reported), and a configured keyword that
contains an ASCII uppercase character is never reported, because only the
message is lowercased. -/
theorem dlp_scan_characterization (suspiciousKeywords : List String) (content kw : String) :
    (kw ∈ detectedKeywords suspiciousKeywords content ↔
      kw ∈ suspiciousKeywords ∧ jsIncludes (jsToLowerCase content) kw = true) ∧
    ((∃ c ∈ kw.data, 65 ≤ c.toNat ∧ c.toNat ≤ 90) →
      kw ∉ detectedKeywords suspiciousKeywords content) := by
  constructor
  · simp [detectedKeywords, List.mem_filter]
  · rintro ⟨c, hc, hupper⟩ hmem
    have hinc : jsIncludes (jsToLowerCase content) kw = true :=
      (List.mem_filter.mp hmem).2
    have : c ∈ (jsToLowerCase content).data :=
      mem_of_infixSearch kw.data (jsToLowerCase content).data hinc c hc
    exact jsToLowerCase_no_upper content c this hupper

theorem dlp_scan_characterization_witness :
    ("confidential" ∈ detectedKeywords ["confidential"] "grab the xCONFIDENTIALITYz file") ∧
    ("LEAK" ∉ detectedKeywords ["LEAK"] "a leak happened") :=
  ⟨(dlp_scan_characterization ["confidential"] "grab the xCONFIDENTIALITYz file" "confidential").1.mpr
      ⟨by decide, by decide⟩,
    (dlp_scan_characterization ["LEAK"] "a leak happened" "LEAK").2 (by decide)⟩

/-! ## Claim theorems -/

/-- C1 (amended): the chain-integrity verification operation performs no
recomputation at all; it reports every chain as verified, whatever the
entries hold. -/
theorem verifyIntegrity_always_verified (logs : List ForensicLog) :
    verifyIntegrity logs = .verified := rfl

set_option maxRecDepth 10000 in
/-- C1 (counterexample): on a chain whose single entry had its userId field
mutated without recomputing the stored hash, the verification operation
still reports verified, although recomputing the entry's hash from its
stored fields no longer matches the stored hash; the claim requires false
here. -/
theorem verifyIntegrity_misses_tampering :
    verifyIntegrity [c1Entry] = .verified ∧
    recomputeHash c1Entry = c1Entry.hash ∧
    c1Tampered.hash = c1Entry.hash ∧
    c1Tampered.userId ≠ c1Entry.userId ∧
    recomputeHash c1Tampered ≠ c1Tampered.hash ∧
    verifyIntegrity [c1Tampered] = .verified := by
  refine ⟨rfl, rfl, rfl, by decide, by decide, rfl⟩

set_option maxRecDepth 10000 in
/-- C4 (failing-input evaluation): for the entry appended with the clock
reading 1000 during payload construction and 1001 at entry construction,
recomputing the hash from the entry's stored eventType, metadata,
timestamp and userId does not reproduce the stored hash. -/
theorem logEntry_hash_not_reproducible : recomputeHash c4Entry ≠ c4Entry.hash := by
  decide

/-- C10: the hash stored by the log-append operation is independent of the
severity and id fields: two appends with identical eventType, metadata and
userId hashed at the same clock reading produce the same hash whatever
their severities, ids or stored timestamps; and recomputing the hash of a
stored entry is unaffected by mutating only its severity or id. -/
theorem logEntry_hash_ignores_severity_and_id :
    (∀ (t : LogEventType) (m : Metadata) (uid id1 id2 : String) (sev1 sev2 : Severity)
      (tPayload tEntry tEntry' : Nat),
      (handleLogEvent t m sev1 uid id1 tPayload tEntry).hash =
        (handleLogEvent t m sev2 uid id2 tPayload tEntry').hash) ∧
    (∀ (l : ForensicLog) (sev : Severity) (newId : String),
      recomputeHash { l with severity := sev, id := newId } = recomputeHash l) :=
  ⟨fun _ _ _ _ _ _ _ _ _ _ => rfl, fun _ _ _ => rfl⟩

/-- C2 (amended): the scoring rubric that the source hands to the external
collaborator as natural-language instructions, applied to any log with 2
SUSPICIOUS_KEYWORD entries, 1 CRITICAL entry, 3 WARNING entries, 0
ANOMALY_DETECTED entries and no hash-mismatch metadata, yields score 85 and
exactly the three factors Suspicious Keywords 30/2, Critical Severity 25/1,
Warning Severity 30/3 in rubric order; the code itself returns whatever the
collaborator replies and so does not guarantee this result. -/
theorem rubric_standard_case (mismatch : ForensicLog → Bool) (logs : List ForensicLog)
    (h1 : countType .SUSPICIOUS_KEYWORD logs = 2) (h2 : countSeverity .CRITICAL logs = 1)
    (h3 : countSeverity .WARNING logs = 3) (h4 : countType .ANOMALY_DETECTED logs = 0)
    (h5 : logs.any mismatch = false) :
    rubricScore mismatch logs = 85 ∧
    rubricFactors mismatch logs =
      [⟨"Suspicious Keywords", 30, 2⟩, ⟨"Critical Severity", 25, 1⟩,
       ⟨"Warning Severity", 30, 3⟩] := by
  simp only [rubricScore, rubricFactors, h1, h2, h3, h4, h5]
  decide

/-- C2 (witness): a concrete four-entry log realising the hypothesised
counts. -/
theorem rubric_standard_case_witness :
    rubricScore (fun _ => false) c2WitnessLogs = 85 ∧
    rubricFactors (fun _ => false) c2WitnessLogs =
      [⟨"Suspicious Keywords", 30, 2⟩, ⟨"Critical Severity", 25, 1⟩,
       ⟨"Warning Severity", 30, 3⟩] :=
  rubric_standard_case (fun _ => false) c2WitnessLogs (by decide) (by decide) (by decide)
    (by decide) (by decide)

/-- C2 (counterexample): on a concrete log with exactly the claimed counts,
the risk-analysis operation of the code does not return score 85 with three
factors: when the external collaborator is unavailable it returns score 0
and no factors (and in general it returns whatever the collaborator
replies). -/
theorem analysis_not_locally_85 :
    countType .SUSPICIOUS_KEYWORD c2Logs = 2 ∧ countSeverity .CRITICAL c2Logs = 1 ∧
    countSeverity .WARNING c2Logs = 3 ∧ countType .ANOMALY_DETECTED c2Logs = 0 ∧
    (analyzeLogs c2Logs none).score = 0 ∧ (analyzeLogs c2Logs none).riskFactors = [] := by
  decide

/-- C3 (amended): when the external summarization collaborator is
unavailable or its output cannot be parsed, analyzeLogs does not propagate
the failure: it returns the fixed fallback result — score 0, the fixed
fallback summary string, the fixed anomalies list and an empty riskFactors
list — independent of the log entries; no score, riskFactors or anomalies
are computed locally. -/
theorem analyzeLogs_failure_returns_fixed_fallback (logs : List ForensicLog) :
    analyzeLogs logs none =
      { score := 0, summary := "Automated analysis failed. Manual review required.",
        anomalies := ["Analysis service unavailable"], riskFactors := [] } := rfl

/-- C3 (counterexample): on a log whose rubric score is 85 with a nonempty
factor breakdown, the failure path still returns score 0, empty riskFactors
and the fixed anomalies list, so the returned fields are not the locally
computed score, riskFactors and anomalies the claim describes. -/
theorem fallback_not_locally_computed :
    (analyzeLogs c3Logs none).score = 0 ∧
    (analyzeLogs c3Logs none).riskFactors = [] ∧
    (analyzeLogs c3Logs none).anomalies = ["Analysis service unavailable"] ∧
    rubricScore (fun _ => false) c3Logs = 85 ∧
    rubricFactors (fun _ => false) c3Logs ≠ [] := by
  decide

/-- C5 (amended): the result of the risk analysis is fully determined by
the external collaborator's response — for one fixed response the result is
identical whatever the log sequence — but it is not a function of the log
sequence alone, since two runs on the same logs can differ when the
responses differ. -/
theorem analyzeLogs_determined_by_response (logs1 logs2 : List ForensicLog)
    (r : Option AnalysisResult) : analyzeLogs logs1 r = analyzeLogs logs2 r := by
  cases r <;> rfl

/-- C5 (counterexample): two runs of the analysis on the same (empty) entry
sequence with different collaborator responses yield different results, so
the operation is not a deterministic function of the entry sequence. -/
theorem analyzeLogs_not_determined_by_logs :
    analyzeLogs [] (some ⟨42, "all clear", [], []⟩) ≠ analyzeLogs [] none := by
  decide

/-- C6: while no session key is held (the handshake has not reached the
SECURE state), handleSendMessage rejects the send: the message list is
unchanged, no log event is emitted, and no Message is constructed at all,
so nothing is queued and nothing leaves unencrypted. -/
theorem send_rejected_without_session_key
    (subtleEncrypt : List Nat → List Nat → List Nat → List Nat)
    (suspiciousKeywords : List String) (currentUserId inputText : String)
    (messages : List Message) (ivBytes : List Nat) (now : Nat) (newId : String) :
    handleSendMessage subtleEncrypt suspiciousKeywords currentUserId none inputText messages
      ivBytes now newId = { messages := messages, events := [], sent := none } := rfl

/-- C7: sending the plaintext "this is CONFIDENTIAL info" with the keyword
configuration consisting exactly of "confidential" emits exactly one
SUSPICIOUS_KEYWORD event; it has WARNING severity and its metadata is the
matched keyword list ["confidential"] together with the plaintext length
25 — the metadata shape carries no other field, so never the plaintext. -/
theorem dlp_confidential_single_event
    (subtleEncrypt : List Nat → List Nat → List Nat → List Nat)
    (key ivBytes : List Nat) (currentUserId : String) (messages : List Message)
    (now : Nat) (newId : String) :
    ((handleSendMessage subtleEncrypt ["confidential"] currentUserId (some key)
        "this is CONFIDENTIAL info" messages ivBytes now newId).events.filter
      (fun e => e.eventType == .SUSPICIOUS_KEYWORD)) =
      [{ eventType := .SUSPICIOUS_KEYWORD,
         metadata := .suspiciousKeyword ["confidential"] 25,
         severity := .WARNING }] := by
  rfl
